import Mathlib

/-!
Verification of the nfl-predictor consensus orchestrator.

The Java backend (`AgentService`, `AgentGatewayService`, the two controllers)
and the React dashboard (`App.js`) are embedded directly from the source.
Reactive constructs (`WebClient`, `Mono.timeout`, `Retry.fixedDelay`) are
modelled by explicit attempt sequences; Java `Map<String, Object>` values are
modelled as association lists over a small value type; `double` confidences
are modelled as rationals.  The Python agent service that fans requests out to
the individual predictors and aggregates their votes is not part of the source
tree, so the dispatcher and the consensus aggregator are modelled from the
spec, each marked as such in its doc comment.
-/

namespace NflPredict

/-- One per-agent prediction as it appears in the `agent_predictions` array of
the agent service's response (fields read by the dashboard and declared by the
`AgentPredictionResponse` DTO). -/
structure AgentPrediction where
  agent_name : String
  predicted_winner : String
  confidence : ℚ
  reasoning : String
deriving DecidableEq

/-- Values stored in the Java `Map<String, Object>` payloads that the backend
builds and forwards: strings, numbers (doubles modelled as rationals),
integers, booleans, and the array of per-agent predictions. -/
inductive JValue where
  | s (v : String)
  | q (v : ℚ)
  | i (v : ℤ)
  | b (v : Bool)
  | preds (v : List AgentPrediction)
deriving DecidableEq

/-- A Java `Map<String, Object>` (all maps in the embedded code are built with
distinct keys, so an association list is a faithful model). -/
abbrev JMap := List (String × JValue)

/-- Key lookup in a `JMap` (`Map.get`). -/
def jmGet : JMap → String → Option JValue
  | [], _ => none
  | (k', v) :: rest, k => if k' == k then some v else jmGet rest k

/-- Read a string-valued key, with the default the reading code supplies
(`res?.key ?? dflt` on the JS side). -/
def jmStr (m : JMap) (k : String) (dflt : String) : String :=
  match jmGet m k with
  | some (JValue.s v) => v
  | _ => dflt

/-- Read a numeric key with a default. -/
def jmNum (m : JMap) (k : String) (dflt : ℚ) : ℚ :=
  match jmGet m k with
  | some (JValue.q v) => v
  | _ => dflt

/-- Read the `agent_predictions` array (`res?.agent_predictions ?? []`). -/
def jmPreds (m : JMap) : List AgentPrediction :=
  match jmGet m "agent_predictions" with
  | some (JValue.preds l) => l
  | _ => []

/-! ### Timeout and retry (Reactor `Mono.timeout` + `Retry.fixedDelay`)

Each subscription of the reactive chain is one `Attempt`: the time the
underlying request takes to settle and what it settles with.  The `timeout`
operator sits upstream of `retryWhen`, so the per-call timeout applies to
every attempt separately. -/

/-- One attempt of the underlying HTTP request. -/
structure Attempt (α : Type) where
  durationMillis : ℕ
  result : Except String α

/-- The `TimeoutException` message Reactor raises when the deadline passes. -/
def timeoutMessage (timeoutMillis : ℕ) : String :=
  "Did not observe any item or terminal signal within " ++
    toString timeoutMillis ++ "ms"

/-- What one attempt of `request.timeout(timeoutMillis)` resolves to: the
timeout error if the request takes longer than the deadline, otherwise the
request's own result. -/
def attemptOutcome (timeoutMillis : ℕ) (a : Attempt α) : Except String α :=
  if timeoutMillis < a.durationMillis then Except.error (timeoutMessage timeoutMillis)
  else a.result

/-- Whether an attempt (with its timeout applied) failed. -/
def attemptFails (timeoutMillis : ℕ) (a : Attempt α) : Bool :=
  match attemptOutcome timeoutMillis a with
  | Except.ok _ => false
  | Except.error _ => true

/-- The error an attempt (with its timeout applied) failed with. -/
def attemptError (timeoutMillis : ℕ) (a : Attempt α) : String :=
  match attemptOutcome timeoutMillis a with
  | Except.ok _ => ""
  | Except.error e => e

/-- The typed failure `Retry.fixedDelay` terminates with once its budget is
spent: `Exceptions.retryExhausted`, carrying the last underlying failure. -/
inductive RetryFailure where
  | exhausted (lastError : String)
deriving DecidableEq

/-- The retry loop of `retryWhen(Retry.fixedDelay(maxRetries, delay))`: try
attempt `i`; on failure with retries left, wait the fixed delay and move to
the next attempt; once no retries remain, terminate with `exhausted` carrying
the last error.  The second component records the delays waited. -/
def retryLoop (timeoutMillis delayMillis : ℕ) (attempts : ℕ → Attempt α) :
    ℕ → ℕ → Except RetryFailure α × List ℕ
  | 0, i =>
    (match attemptOutcome timeoutMillis (attempts i) with
     | Except.ok v => Except.ok v
     | Except.error e => Except.error (RetryFailure.exhausted e), [])
  | n + 1, i =>
    match attemptOutcome timeoutMillis (attempts i) with
    | Except.ok v => (Except.ok v, [])
    | Except.error _ =>
      let rest := retryLoop timeoutMillis delayMillis attempts n (i + 1)
      (rest.1, delayMillis :: rest.2)

/-- `AgentGatewayService.applyTimeoutAndRetry`: bound every attempt by the
per-call timeout and retry with fixed delay up to `maxRetries` times. -/
def applyTimeoutAndRetry (timeoutMillis delayMillis maxRetries : ℕ)
    (attempts : ℕ → Attempt α) : Except RetryFailure α × List ℕ :=
  retryLoop timeoutMillis delayMillis attempts maxRetries 0

namespace AgentService

/-- `@Value("${agent.service.timeout:30000}")`. -/
def defaultTimeoutMillis : ℕ := 30000

/-- `@Value("${agent.service.retry.max-attempts:3}")`. -/
def defaultMaxRetryAttempts : ℕ := 3

/-- The fixed retry delay `AgentService` hardcodes: `Duration.ofSeconds(1)`. -/
def retryDelayMillis : ℕ := 1000

/-- `AgentService.createFallbackPrediction`: the map substituted whenever the
agent service call fails, in the `put` order of the source. -/
def createFallbackPrediction (homeTeam awayTeam error now : String) : JMap :=
  [("overall_winner", JValue.s homeTeam),
   ("overall_confidence", JValue.q (1/2)),
   ("consensus_reasoning",
     JValue.s "Agent service unavailable - using fallback prediction"),
   ("error", JValue.s error),
   ("prediction_time", JValue.s now)]

/-- `AgentService.createGameData` (`LocalDateTime.now()` is passed in as
`now`). -/
def createGameData (gameId : ℤ) (homeTeam awayTeam now : String) : JMap :=
  [("game_id", JValue.i gameId),
   ("home_team_name", JValue.s homeTeam),
   ("away_team_name", JValue.s awayTeam),
   ("game_time", JValue.s now),
   ("venue", JValue.s (homeTeam ++ " Stadium")),
   ("is_dome", JValue.b false)]

/-- `AgentService.createPredictionRequest`. -/
def createPredictionRequest (gameData : JMap) : List (String × JMap) × Bool × ℚ :=
  ([("game_data", gameData)], true, 0)

/-- How the blocking call inside `AgentService.getPrediction` can settle:
a response map, a `WebClientResponseException` (HTTP error status), or any
other exception (timeout, transport error, exhausted retries). -/
inductive AgentCallOutcome where
  | success (response : JMap)
  | httpError (status : String) (body : String)
  | failure (message : String)

/-- `AgentService.getPrediction`: return the agent service's response on
success; convert a `WebClientResponseException` or any other exception into
`createFallbackPrediction`, never rethrowing.  (`gameId` is only used to build
the outgoing payload.) -/
def getPrediction (gameId : ℤ) (now homeTeam awayTeam : String)
    (outcome : AgentCallOutcome) : JMap :=
  match outcome with
  | AgentCallOutcome.success r => r
  | AgentCallOutcome.httpError st body =>
    createFallbackPrediction homeTeam awayTeam
      ("Agent service HTTP error: " ++ st ++ " - " ++ body) now
  | AgentCallOutcome.failure msg =>
    createFallbackPrediction homeTeam awayTeam
      ("Agent service error: " ++ msg) now

/-- The message of Reactor's retry-exhausted failure, which is what the
`catch (Exception e)` branch of `getPrediction` sees after all attempts
failed. -/
def retryExhaustedMessage (maxRetries : ℕ) : String :=
  "Retries exhausted: " ++ toString maxRetries ++ "/" ++ toString maxRetries

/-- `AgentService.getPrediction` with its reactive chain made explicit: run
the timeout-and-retry loop; a successful response is returned as-is, and the
exhausted failure is caught and converted into the fallback prediction. -/
def getPredictionWithRetry (timeoutMillis maxRetries : ℕ) (gameId : ℤ)
    (now homeTeam awayTeam : String) (attempts : ℕ → Attempt JMap) : JMap :=
  match (applyTimeoutAndRetry timeoutMillis retryDelayMillis maxRetries attempts).1 with
  | Except.ok r => r
  | Except.error (RetryFailure.exhausted _) =>
    getPrediction gameId now homeTeam awayTeam
      (AgentCallOutcome.failure (retryExhaustedMessage maxRetries))

/-- The hardcoded probe timeout of `getAgentStatus` and `getHealth`:
`Duration.ofMillis(5000)`. -/
def healthCheckTimeoutMillis : ℕ := 5000

/-- `AgentService.getAgentStatus`: probe `/agents/status` with the 5 s
timeout; wrap a successful payload under `status: healthy`, and turn any
failure into `status: unhealthy` carrying the error. -/
def getAgentStatus (probe : Attempt JValue) : JMap :=
  match attemptOutcome healthCheckTimeoutMillis probe with
  | Except.ok agents => [("status", JValue.s "healthy"), ("agents", agents)]
  | Except.error e => [("status", JValue.s "unhealthy"), ("error", JValue.s e)]

/-- `AgentService.getHealth`: probe `/health` with the 5 s timeout; forward a
successful response unchanged, and turn any failure into `status: unhealthy`
carrying the error. -/
def getHealth (probe : Attempt JMap) : JMap :=
  match attemptOutcome healthCheckTimeoutMillis probe with
  | Except.ok response => response
  | Except.error e => [("status", JValue.s "unhealthy"), ("error", JValue.s e)]

end AgentService

/-! ### The gateway path (`AgentGatewayService`, DTO records) -/

/-- The `GameDataRequest` record. -/
structure GameDataRequest where
  gameId : ℤ
  homeTeamName : String
  awayTeamName : String
  gameTime : String
  venue : Option String
  isDome : Bool
deriving DecidableEq

/-- The `PredictionRequest` record. -/
structure PredictionRequest where
  gameData : GameDataRequest
  includeReasoning : Bool
  confidenceThreshold : ℚ
deriving DecidableEq

/-- The `PredictionResponse` record. -/
structure PredictionResponse where
  gameId : ℤ
  overallWinner : String
  overallConfidence : ℚ
  agentPredictions : List AgentPrediction
  consensusReasoning : String
  predictionTime : String
deriving DecidableEq

namespace AgentGatewayService

/-- `@Value("${agent.service.retry.delay:1000}")`. -/
def defaultRetryDelayMillis : ℕ := 1000

/-- `AgentGatewayService.getPrediction`: post the request and block on the
timeout-and-retry chain.  There is no catch block, so an exhausted failure
propagates to the caller. -/
def getPrediction (timeoutMillis delayMillis maxRetries : ℕ)
    (attempts : ℕ → Attempt PredictionResponse) :
    Except RetryFailure PredictionResponse :=
  (applyTimeoutAndRetry timeoutMillis delayMillis maxRetries attempts).1

end AgentGatewayService

/-! ### Controllers (the inbound entry points under `src/`) -/

/-- A `ResponseEntity`: either `ok(body)` or `notFound`. -/
inductive ControllerResponse (α : Type) where
  | ok (body : α)
  | notFound
deriving DecidableEq

/-- `teamRepository.findById` over the teams table, id to name. -/
def findTeamName : List (ℕ × String) → ℕ → Option String
  | [], _ => none
  | (id, name) :: rest, wanted =>
    if id == wanted then some name else findTeamName rest wanted

namespace PredictionController

/-- `PredictionController.predictGame`: look both team ids up; if either is
missing answer `notFound`; otherwise call the agent service (the boolean
records whether that call happened).  No comparison between the two teams is
ever made. -/
def predictGame (teams : List (ℕ × String)) (homeTeamId awayTeamId : ℕ)
    (now : String) (outcome : AgentService.AgentCallOutcome) :
    ControllerResponse JMap × Bool :=
  match findTeamName teams homeTeamId, findTeamName teams awayTeamId with
  | some homeName, some awayName =>
    (ControllerResponse.ok (AgentService.getPrediction 1 now homeName awayName outcome),
     true)
  | _, _ => (ControllerResponse.notFound, false)

end PredictionController

namespace AgentProxyController

/-- `AgentProxyController.predict`: forward the request body to the gateway
unconditionally — the request is never inspected before dispatch. -/
def predict (timeoutMillis delayMillis maxRetries : ℕ)
    (attempts : ℕ → Attempt PredictionResponse)
    (request : PredictionRequest) : Except RetryFailure PredictionResponse :=
  AgentGatewayService.getPrediction timeoutMillis delayMillis maxRetries attempts

end AgentProxyController

/-! ### The dashboard's consensus summary (`demo/src/App.js`) -/

/-- JS `String.prototype.toLowerCase` (ASCII case, enough for the agent names
involved). -/
def jsToLower (s : String) : String := String.mk (s.data.map Char.toLower)

/-- JS `String.prototype.includes`: substring containment. -/
def jsIncludes (s pattern : String) : Bool :=
  (List.range (s.data.length + 1)).any fun i =>
    (s.data.drop i).take pattern.data.length == pattern.data

/-- `normalizeAgentKey` from `App.js`: bucket an agent's free-text name by
substring matching on its lower-cased form; anything unmatched lands in the
`injuries` bucket. -/
def normalizeAgentKey (agentName : String) : String :=
  let normalized := jsToLower agentName
  if jsIncludes normalized "weather" then "weather"
  else if jsIncludes normalized "market" then "market"
  else if jsIncludes normalized "news" then "news"
  else if jsIncludes normalized "data" || jsIncludes normalized "injury" then "injuries"
  else "injuries"

/-- One entry of the dashboard's `agentDefinitions` list. -/
structure AgentDefinition where
  key : String
  label : String
  description : String
deriving DecidableEq

/-- The dashboard's fixed `agentDefinitions` list, in source order. -/
def agentDefinitions : List AgentDefinition :=
  [⟨"weather", "Weather", "Wind, precipitation, and temperature signals"⟩,
   ⟨"injuries", "Injuries", "Lineup health and late-week availability"⟩,
   ⟨"market", "Market", "Sharp money, line movement, and consensus splits"⟩,
   ⟨"news", "News", "Beat reports, momentum, and roster updates"⟩]

/-- One value of the `agentInsights` object.  The initial entries carry
`label`, `description` and `status`; an entry written by a prediction is a
fresh object carrying the vote fields instead (the JS assignment replaces the
whole object, so `status` is gone afterwards — `Option` fields model which
properties each object shape has). -/
structure AgentInsight where
  label : String
  description : String
  status : Option String
  predictedWinner : Option String
  confidence : Option ℚ
  reasoning : Option String
  isAligned : Option Bool
deriving DecidableEq

/-- The seed entry the `agentDefinitions.reduce` puts under each key. -/
def initialInsight (d : AgentDefinition) : AgentInsight :=
  { label := d.label, description := d.description, status := some "Awaiting data",
    predictedWinner := none, confidence := none, reasoning := none, isAligned := none }

/-- The `agentInsights` JS object: keys in insertion order. -/
abbrev InsightMap := List (String × AgentInsight)

/-- JS property read `agentInsights[key]`. -/
def insightGet : InsightMap → String → Option AgentInsight
  | [], _ => none
  | (k', v) :: rest, k => if k' == k then some v else insightGet rest k

/-- JS property write `agentInsights[key] = v`: replace in place, or append a
new key. -/
def insightSet : InsightMap → String → AgentInsight → InsightMap
  | [], k, v => [(k, v)]
  | (k', v') :: rest, k, v =>
    if k' == k then (k, v) :: rest else (k', v') :: insightSet rest k v

/-- The body of the `agentPredictions.forEach` loop in
`buildPredictionSummary`: bucket the prediction by `normalizeAgentKey` and
overwrite that bucket's entry. -/
def applyAgentPrediction (winner : String) (m : InsightMap)
    (p : AgentPrediction) : InsightMap :=
  let key := normalizeAgentKey p.agent_name
  let existing := insightGet m key
  insightSet m key
    { label := (existing.map AgentInsight.label).getD p.agent_name,
      description := (existing.map AgentInsight.description).getD "",
      status := none,
      predictedWinner := some p.predicted_winner,
      confidence := some p.confidence,
      reasoning := some p.reasoning,
      isAligned := some (p.predicted_winner == winner) }

/-- The summary object `buildPredictionSummary` returns (the `consensus`
sub-object is flattened into the three `consensus*` fields). -/
structure ConsensusSummary where
  winner : String
  confidence : ℚ
  reasoning : String
  consensusCount : ℕ
  consensusTotal : ℕ
  consensusLabel : String
  agentInsights : InsightMap
deriving DecidableEq

/-- `buildPredictionSummary` from `App.js`, over the backend's response map:
default the missing fields, count the agents aligned with the overall winner,
and fold every prediction into the insight buckets. -/
def buildPredictionSummary (res : JMap) : ConsensusSummary :=
  let agentPredictions := jmPreds res
  let totalAgents :=
    if agentPredictions.length = 0 then agentDefinitions.length
    else agentPredictions.length
  let winner := jmStr res "overall_winner" "Awaiting pick"
  let confidence := jmNum res "overall_confidence" 0
  let alignedAgents :=
    (agentPredictions.filter fun p => p.predicted_winner == winner).length
  let base := agentDefinitions.map fun d => (d.key, initialInsight d)
  let insights := agentPredictions.foldl (applyAgentPrediction winner) base
  { winner := winner
    confidence := confidence
    reasoning := jmStr res "consensus_reasoning" "Consensus details are pending."
    consensusCount := alignedAgents
    consensusTotal := totalAgents
    consensusLabel := toString alignedAgents ++ "/" ++ toString totalAgents ++ " agents"
    agentInsights := insights }

/-! ### The consensus aggregator and the fan-out dispatcher

The Python agent service that implements these two components is not under
`src/` (only its SQL seed data is), so they are modelled from the spec. -/

/-- One agent's normalized vote (spec §3 `AgentVote`with the fields the
aggregation uses). -/
structure AgentVote where
  agentId : String
  predictedWinner : String
  confidence : ℚ
deriving DecidableEq

/-- Modelled from the spec: the total confidence mass of a team — the sum of
the confidences of all votes choosing that team (§4.3 step 2). -/
def confidenceMass (team : String) (votes : List AgentVote) : ℚ :=
  ((votes.filter fun v => v.predictedWinner == team).map AgentVote.confidence).sum

/-- Modelled from the spec: the overall winner — the team with the highest
total confidence mass, preferring the home team on equal mass (§4.3 step 2).
The missing Python aggregator is the component this stands in for. -/
def overallWinner (home away : String) (votes : List AgentVote) : String :=
  if confidenceMass home votes < confidenceMass away votes then away else home

/-- The votes that agree with the overall winner. -/
def winnerVotes (home away : String) (votes : List AgentVote) : List AgentVote :=
  votes.filter fun v => v.predictedWinner == overallWinner home away votes

/-- Modelled from the spec: the overall confidence — the average confidence
among the votes that agree with the overall winner (§4.3 step 3), falling back
to 0.5 when no vote does (§4.3 edge case). -/
def overallConfidence (home away : String) (votes : List AgentVote) : ℚ :=
  if (winnerVotes home away votes).length = 0 then 1/2
  else ((winnerVotes home away votes).map AgentVote.confidence).sum /
    ((winnerVotes home away votes).length : ℚ)

/-- One registered agent's outcome for one request (spec §3 `AgentOutcome`). -/
inductive AgentOutcome where
  | excluded (agentId : String)
  | vote (v : AgentVote)
  | fallbackVote (v : AgentVote)
deriving DecidableEq

/-- How one agent client call settles (spec §4.1). -/
inductive AgentCallResult where
  | ok (v : AgentVote)
  | exhausted (lastError : String)

/-- Modelled from the spec: the fan-out dispatcher (§4.2) of the missing
Python agent service — skip unhealthy agents as `excluded`, call the rest,
and substitute the deterministic fallback vote (home team, confidence 0.5)
for every exhausted call, preserving registration order. -/
def dispatch (home : String) (agents : List String) (healthy : String → Bool)
    (call : String → AgentCallResult) : List AgentOutcome :=
  agents.map fun a =>
    if healthy a then
      match call a with
      | AgentCallResult.ok v => AgentOutcome.vote v
      | AgentCallResult.exhausted _ => AgentOutcome.fallbackVote ⟨a, home, 1/2⟩
    else AgentOutcome.excluded a

/-! ### Concrete instances used by witnesses and counterexamples -/

/-- The four-vote scenario of spec §8: {A:0.8, A:0.6, B:0.55, A:0.5}. -/
def scenarioVotes : List AgentVote :=
  [⟨"agent1", "A", 4/5⟩, ⟨"agent2", "A", 3/5⟩, ⟨"agent3", "B", 11/20⟩, ⟨"agent4", "A", 1/2⟩]

/-- An agent service whose connection is refused instantly on every attempt. -/
def alwaysDown : ℕ → Attempt PredictionResponse :=
  fun _ => ⟨0, Except.error "Connection refused"⟩

/-- An agent service call that always takes 40 s, past the default 30 s
deadline. -/
def alwaysTimedOut : ℕ → Attempt JMap :=
  fun _ => ⟨40000, Except.ok [("overall_winner", JValue.s "Chiefs")]⟩

/-- A well-formed request whose home and away team coincide. -/
def selfRequest : PredictionRequest :=
  { gameData :=
      { gameId := 1, homeTeamName := "Chiefs", awayTeamName := "Chiefs",
        gameTime := "2026-01-10T18:00", venue := none, isDome := false },
    includeReasoning := true, confidenceThreshold := 0 }

/-- A well-formed request with two distinct teams. -/
def sampleRequest : PredictionRequest :=
  { gameData :=
      { gameId := 1, homeTeamName := "Chiefs", awayTeamName := "Bills",
        gameTime := "2026-01-10T18:00", venue := some "Arrowhead Stadium",
        isDome := false },
    includeReasoning := true, confidenceThreshold := 0 }

/-- A successful agent-service response body. -/
def okBody : JMap :=
  [("overall_winner", JValue.s "Chiefs"), ("overall_confidence", JValue.q (7/10))]

/-- A health probe body whose own status field is not `healthy`. -/
def degradedHealthBody : JMap := [("status", JValue.s "degraded")]

/-- A response carrying two agent votes that normalize to the same insight
bucket (`ESPN Stats Agent` matches no keyword, `Injury Agent` matches
`injury`; both land in `injuries`). -/
def twoVoteRes : JMap :=
  [("overall_winner", JValue.s "Chiefs"),
   ("overall_confidence", JValue.q (3/5)),
   ("agent_predictions", JValue.preds
     [⟨"ESPN Stats Agent", "Chiefs", 3/5, "stats edge"⟩,
      ⟨"Injury Agent", "Bills", 1/2, "injury concerns"⟩])]

/-- A response whose two agent votes both name the overall winner. -/
def alignedRes : JMap :=
  [("overall_winner", JValue.s "Chiefs"),
   ("overall_confidence", JValue.q (7/10)),
   ("agent_predictions", JValue.preds
     [⟨"Weather Agent", "Chiefs", 7/10, "clear skies"⟩,
      ⟨"Market Agent", "Chiefs", 3/5, "sharp money"⟩])]

/-- The alignment contract of one insight entry: if it carries a vote, its
flag says whether that vote names the overall winner. -/
def alignedFlagOk (winner : String) (ins : AgentInsight) : Prop :=
  ∀ pw, ins.predictedWinner = some pw → ins.isAligned = some (pw == winner)

/-! ## Helper lemmas -/

theorem scenario_mass_A : confidenceMass "A" scenarioVotes = 19/10 := by
  norm_num [confidenceMass, scenarioVotes, show (("A" : String) == "A") = true from rfl,
    show (("B" : String) == "A") = false from rfl]

theorem scenario_mass_B : confidenceMass "B" scenarioVotes = 11/20 := by
  norm_num [confidenceMass, scenarioVotes, show (("B" : String) == "B") = true from rfl,
    show (("A" : String) == "B") = false from rfl]

theorem scenario_winner : overallWinner "A" "B" scenarioVotes = "A" := by
  unfold overallWinner
  rw [scenario_mass_A, scenario_mass_B, if_neg (by norm_num)]

theorem scenario_confidence : overallConfidence "A" "B" scenarioVotes = 19/30 := by
  unfold overallConfidence winnerVotes
  rw [scenario_winner]
  norm_num [scenarioVotes, show (("A" : String) == "A") = true from rfl,
    show (("B" : String) == "A") = false from rfl]

theorem retryLoop_all_fail {α : Type} (t d : ℕ) (a : ℕ → Attempt α) :
    ∀ (n i : ℕ), (∀ j, j ≤ n → attemptFails t (a (i + j)) = true) →
      (retryLoop t d a n i).1
        = Except.error (RetryFailure.exhausted (attemptError t (a (i + n)))) := by
  intro n
  induction n with
  | zero =>
    intro i h
    have h0 := h 0 (Nat.le_refl 0)
    rw [Nat.add_zero] at h0 ⊢
    simp only [retryLoop]
    unfold attemptFails at h0
    unfold attemptError
    cases hE : attemptOutcome t (a i) with
    | ok v => rw [hE] at h0; exact Bool.noConfusion h0
    | error e => simp [hE]
  | succ n ih =>
    intro i h
    have h0 := h 0 (Nat.zero_le _)
    rw [Nat.add_zero] at h0
    simp only [retryLoop]
    unfold attemptFails at h0
    cases hE : attemptOutcome t (a i) with
    | ok v => rw [hE] at h0; exact Bool.noConfusion h0
    | error e =>
      have hrest := ih (i + 1) (fun j hj => by
        have hh := h (j + 1) (Nat.succ_le_succ hj)
        rwa [show i + (j + 1) = i + 1 + j by omega] at hh)
      rw [show i + 1 + n = i + (n + 1) by omega] at hrest
      simp [hE, hrest]

theorem retryLoop_error_all_fail {α : Type} (t d : ℕ) (a : ℕ → Attempt α) :
    ∀ (n i : ℕ) (e : RetryFailure), (retryLoop t d a n i).1 = Except.error e →
      ∀ j, j ≤ n → attemptFails t (a (i + j)) = true := by
  intro n
  induction n with
  | zero =>
    intro i e herr j hj
    interval_cases j
    rw [Nat.add_zero]
    simp only [retryLoop] at herr
    unfold attemptFails
    cases hE : attemptOutcome t (a i) with
    | ok v => rw [hE] at herr; exact absurd herr (by simp)
    | error e' => rfl
  | succ n ih =>
    intro i e herr j hj
    simp only [retryLoop] at herr
    cases hE : attemptOutcome t (a i) with
    | ok v => rw [hE] at herr; exact absurd herr (by simp)
    | error e' =>
      rw [hE] at herr
      simp only at herr
      cases j with
      | zero => rw [Nat.add_zero]; unfold attemptFails; rw [hE]
      | succ k =>
        have hk : k ≤ n := Nat.le_of_succ_le_succ hj
        have hik := ih (i + 1) e herr k hk
        rwa [show i + 1 + k = i + (k + 1) by omega] at hik

theorem retryLoop_trace {α : Type} (t d : ℕ) (a : ℕ → Attempt α) :
    ∀ (n i : ℕ), (∀ x ∈ (retryLoop t d a n i).2, x = d) ∧
      (retryLoop t d a n i).2.length ≤ n := by
  intro n
  induction n with
  | zero =>
    intro i
    simp only [retryLoop]
    cases hE : attemptOutcome t (a i) <;> simp
  | succ n ih =>
    intro i
    simp only [retryLoop]
    cases hE : attemptOutcome t (a i) with
    | ok v => simp
    | error e =>
      have hih := ih (i + 1)
      simp only []
      constructor
      · intro x hx
        rcases List.mem_cons.mp hx with h | h
        · exact h
        · exact hih.1 x h
      · exact Nat.succ_le_succ hih.2

theorem insightGet_insightSet_self (m : InsightMap) (k : String) (v : AgentInsight) :
    insightGet (insightSet m k v) k = some v := by
  induction m with
  | nil => simp [insightSet, insightGet]
  | cons kv rest ih =>
    obtain ⟨k', v'⟩ := kv
    by_cases h : k' == k
    · simp [insightSet, h, insightGet]
    · simp only [insightSet, h]
      rw [if_neg (by simp [h])]
      simp [insightGet, h, ih]

theorem mem_insightSet (k : String) (v : AgentInsight) :
    ∀ (m : InsightMap), ∀ kv ∈ insightSet m k v, kv = (k, v) ∨ kv ∈ m := by
  intro m
  induction m with
  | nil => intro kv hkv; simp [insightSet] at hkv; exact Or.inl hkv
  | cons kv' rest ih =>
    obtain ⟨k', v'⟩ := kv'
    intro kv hkv
    by_cases h : k' == k
    · simp only [insightSet, if_pos h] at hkv
      rcases List.mem_cons.mp hkv with h1 | h1
      · exact Or.inl h1
      · exact Or.inr (List.mem_cons_of_mem _ h1)
    · simp only [insightSet, if_neg h] at hkv
      rcases List.mem_cons.mp hkv with h1 | h1
      · exact Or.inr (h1 ▸ List.mem_cons_self _ _)
      · rcases ih kv h1 with h2 | h2
        · exact Or.inl h2
        · exact Or.inr (List.mem_cons_of_mem _ h2)

theorem applyAgentPrediction_aligned (w : String) (m : InsightMap)
    (p : AgentPrediction) :
    (∀ kv ∈ m, alignedFlagOk w kv.2) →
    ∀ kv ∈ applyAgentPrediction w m p, alignedFlagOk w kv.2 := by
  intro hm kv hkv
  simp only [applyAgentPrediction] at hkv
  rcases mem_insightSet _ _ _ kv hkv with h | h
  · subst h
    intro pw hpw
    simp only at hpw
    rw [Option.some.injEq] at hpw
    subst hpw
    rfl
  · exact hm kv h

theorem foldl_apply_aligned (w : String) :
    ∀ (ps : List AgentPrediction) (m : InsightMap),
      (∀ kv ∈ m, alignedFlagOk w kv.2) →
      ∀ kv ∈ ps.foldl (applyAgentPrediction w) m, alignedFlagOk w kv.2 := by
  intro ps
  induction ps with
  | nil =>
    intro m hm
    simp only [List.foldl_nil]
    exact hm
  | cons p rest ih =>
    intro m hm
    simp only [List.foldl_cons]
    exact ih _ (applyAgentPrediction_aligned w m p hm)

theorem base_insights_aligned (w : String) :
    ∀ kv ∈ agentDefinitions.map (fun d => (d.key, initialInsight d)),
      alignedFlagOk w kv.2 := by
  intro kv hkv pw hpw
  rcases List.mem_map.mp hkv with ⟨d, _, rfl⟩
  exact Option.noConfusion hpw

theorem bps_winner (res : JMap) :
    (buildPredictionSummary res).winner = jmStr res "overall_winner" "Awaiting pick" := rfl

theorem bps_count (res : JMap) :
    (buildPredictionSummary res).consensusCount
      = ((jmPreds res).filter fun p =>
          p.predicted_winner == jmStr res "overall_winner" "Awaiting pick").length := rfl

theorem bps_total (res : JMap) :
    (buildPredictionSummary res).consensusTotal
      = if (jmPreds res).length = 0 then agentDefinitions.length
        else (jmPreds res).length := rfl

theorem bps_label (res : JMap) :
    (buildPredictionSummary res).consensusLabel
      = toString (buildPredictionSummary res).consensusCount ++ "/"
        ++ toString (buildPredictionSummary res).consensusTotal ++ " agents" := rfl

theorem bps_insights (res : JMap) :
    (buildPredictionSummary res).agentInsights
      = (jmPreds res).foldl
          (applyAgentPrediction (jmStr res "overall_winner" "Awaiting pick"))
          (agentDefinitions.map fun d => (d.key, initialInsight d)) := rfl

theorem fallback_fields (h a e n : String) :
    jmStr (AgentService.createFallbackPrediction h a e n) "overall_winner" "" = h ∧
    jmNum (AgentService.createFallbackPrediction h a e n) "overall_confidence" 0 = 1/2 ∧
    jmStr (AgentService.createFallbackPrediction h a e n) "consensus_reasoning" ""
      = "Agent service unavailable - using fallback prediction" ∧
    AgentService.createFallbackPrediction h a e n ≠ [] :=
  ⟨rfl, rfl, rfl, by simp [AgentService.createFallbackPrediction]⟩

/-! ## Claim theorems -/

/-- C1: for every non-empty collection of non-excluded votes on the two teams
of the request, the aggregation picks as overall winner the team with the
highest total confidence mass, preferring the home team on equal mass, and the
overall confidence times the number of winner-aligned votes equals the sum of
their confidences (i.e. it is their arithmetic mean); in particular the votes
{A:0.8, A:0.6, B:0.55, A:0.5} yield winner A with confidence
(0.8+0.6+0.5)/3 = 19/30. -/
theorem consensus_winner_by_confidence_mass (home away : String)
    (votes : List AgentVote) (hne : votes ≠ [])
    (hdom : ∀ v ∈ votes, v.predictedWinner = home ∨ v.predictedWinner = away) :
    (confidenceMass home votes ≤ confidenceMass (overallWinner home away votes) votes ∧
      confidenceMass away votes ≤ confidenceMass (overallWinner home away votes) votes) ∧
    (confidenceMass home votes = confidenceMass away votes →
      overallWinner home away votes = home) ∧
    (winnerVotes home away votes ≠ [] →
      overallConfidence home away votes * ((winnerVotes home away votes).length : ℚ)
        = ((winnerVotes home away votes).map AgentVote.confidence).sum) ∧
    (overallWinner "A" "B" scenarioVotes = "A" ∧
      overallConfidence "A" "B" scenarioVotes = 19/30) := by
  refine ⟨?_, ?_, ?_, scenario_winner, scenario_confidence⟩
  · unfold overallWinner
    by_cases hlt : confidenceMass home votes < confidenceMass away votes
    · rw [if_pos hlt]
      exact ⟨le_of_lt hlt, le_refl _⟩
    · rw [if_neg hlt]
      exact ⟨le_refl _, not_lt.mp hlt⟩
  · intro heq
    unfold overallWinner
    rw [heq, if_neg (lt_irrefl _)]
  · intro hws
    have hlen0 : (winnerVotes home away votes).length ≠ 0 :=
      fun h => hws (List.length_eq_zero.mp h)
    unfold overallConfidence
    rw [if_neg hlen0]
    exact div_mul_cancel₀ _ (Nat.cast_ne_zero.mpr hlen0)

/-- Witness for C1 at the spec's four-vote scenario. -/
theorem consensus_winner_by_confidence_mass_witness :
    scenarioVotes ≠ [] ∧
    (overallWinner "A" "B" scenarioVotes = "A" ∧
      overallConfidence "A" "B" scenarioVotes = 19/30) :=
  ⟨by decide,
   (consensus_winner_by_confidence_mass "A" "B" scenarioVotes (by decide)
     (by decide)).2.2.2⟩

/-- C4: the dispatcher produces exactly one outcome per registered agent —
the result-set size equals the number of agents registered at dispatch time,
independent of how many succeeded, fell back, or were excluded. -/
theorem dispatch_one_outcome_per_agent (home : String) (agents : List String)
    (healthy : String → Bool) (call : String → AgentCallResult) :
    (dispatch home agents healthy call).length = agents.length := by
  unfold dispatch
  exact List.length_map _ _

/-- C2 counterexample: the gateway predict path propagates an agent-level
failure to its caller — with every attempt refused, `AgentProxyController`'s
`/predict` endpoint resolves to the exhausted error, not to a fallback
consensus, refuting "predict never propagates an error to the caller". -/
theorem gateway_predict_propagates_failure :
    AgentProxyController.predict 30000 1000 3 alwaysDown sampleRequest
      = Except.error (RetryFailure.exhausted "Connection refused") := rfl

/-- C2 (amended): `AgentService.getPrediction` absorbs every agent-level
failure — an HTTP error status or any other exception (timeout, transport
error, exhausted retries) is converted into the confidence-0.5 fallback
consensus naming the home team, and a successful response is returned as-is —
while the gateway path (`AgentGatewayService.getPrediction`, behind
`AgentProxyController.predict`) has no such handler and propagates the
exhausted failure. -/
theorem agent_service_predict_absorbs_failures (gameId : ℤ)
    (now homeTeam awayTeam st body msg : String) (r : JMap) :
    AgentService.getPrediction gameId now homeTeam awayTeam
      (AgentService.AgentCallOutcome.success r) = r ∧
    jmStr (AgentService.getPrediction gameId now homeTeam awayTeam
      (AgentService.AgentCallOutcome.httpError st body)) "overall_winner" "" = homeTeam ∧
    jmNum (AgentService.getPrediction gameId now homeTeam awayTeam
      (AgentService.AgentCallOutcome.httpError st body)) "overall_confidence" 0 = 1/2 ∧
    jmStr (AgentService.getPrediction gameId now homeTeam awayTeam
      (AgentService.AgentCallOutcome.failure msg)) "overall_winner" "" = homeTeam ∧
    jmNum (AgentService.getPrediction gameId now homeTeam awayTeam
      (AgentService.AgentCallOutcome.failure msg)) "overall_confidence" 0 = 1/2 :=
  ⟨rfl, rfl, rfl, rfl, rfl⟩

/-- C3: when every attempt of the timeout-and-retry budget fails, the
substituted fallback prediction names the request's home team as winner with
confidence exactly 0.5 and the documented agent-unavailable reasoning, and is
never an empty map. -/
theorem exhausted_call_falls_back_to_home (timeoutMillis maxRetries : ℕ)
    (gameId : ℤ) (now homeTeam awayTeam : String) (attempts : ℕ → Attempt JMap)
    (hfail : ∀ j, j ≤ maxRetries → attemptFails timeoutMillis (attempts j) = true) :
    jmStr (AgentService.getPredictionWithRetry timeoutMillis maxRetries gameId
      now homeTeam awayTeam attempts) "overall_winner" "" = homeTeam ∧
    jmNum (AgentService.getPredictionWithRetry timeoutMillis maxRetries gameId
      now homeTeam awayTeam attempts) "overall_confidence" 0 = 1/2 ∧
    jmStr (AgentService.getPredictionWithRetry timeoutMillis maxRetries gameId
      now homeTeam awayTeam attempts) "consensus_reasoning" ""
      = "Agent service unavailable - using fallback prediction" ∧
    AgentService.getPredictionWithRetry timeoutMillis maxRetries gameId
      now homeTeam awayTeam attempts ≠ [] := by
  have herr := retryLoop_all_fail timeoutMillis AgentService.retryDelayMillis
    attempts maxRetries 0 (fun j hj => by rw [Nat.zero_add]; exact hfail j hj)
  have hres : AgentService.getPredictionWithRetry timeoutMillis maxRetries gameId
      now homeTeam awayTeam attempts
      = AgentService.createFallbackPrediction homeTeam awayTeam
        ("Agent service error: " ++ AgentService.retryExhaustedMessage maxRetries) now := by
    unfold AgentService.getPredictionWithRetry applyTimeoutAndRetry
    rw [herr]
    rfl
  rw [hres]
  exact fallback_fields _ _ _ _

/-- Witness for C3: an agent whose calls always exceed the 30 s deadline ends
in the home-team fallback with confidence 0.5. -/
theorem exhausted_call_falls_back_to_home_witness :
    (∀ j, j ≤ 3 → attemptFails 30000 (alwaysTimedOut j) = true) ∧
    jmStr (AgentService.getPredictionWithRetry 30000 3 1 "t0" "Chiefs" "Bills"
      alwaysTimedOut) "overall_winner" "" = "Chiefs" ∧
    jmNum (AgentService.getPredictionWithRetry 30000 3 1 "t0" "Chiefs" "Bills"
      alwaysTimedOut) "overall_confidence" 0 = 1/2 :=
  ⟨by decide,
   (exhausted_call_falls_back_to_home 30000 3 1 "t0" "Chiefs" "Bills"
     alwaysTimedOut (by decide)).1,
   (exhausted_call_falls_back_to_home 30000 3 1 "t0" "Chiefs" "Bills"
     alwaysTimedOut (by decide)).2.1⟩

/-- C7: each attempt of an agent prediction call is bounded by the per-call
timeout (an attempt exceeding it resolves to the timeout error); the call is
retried with a fixed delay between attempts at most `maxRetries` times; it
resolves to the exhausted failure carrying the last attempt's error exactly
when every attempt in the budget failed; and the configured defaults are a
30 s timeout, 3 retry attempts, and a 1 s fixed delay. -/
theorem timeout_retry_contract {α : Type} (timeoutMillis delayMillis maxRetries : ℕ)
    (attempts : ℕ → Attempt α) :
    (∀ (d : ℕ) (r : Except String α), timeoutMillis < d →
      attemptOutcome timeoutMillis ⟨d, r⟩ = Except.error (timeoutMessage timeoutMillis)) ∧
    (∀ x ∈ (applyTimeoutAndRetry timeoutMillis delayMillis maxRetries attempts).2,
      x = delayMillis) ∧
    (applyTimeoutAndRetry timeoutMillis delayMillis maxRetries attempts).2.length
      ≤ maxRetries ∧
    ((∀ j, j ≤ maxRetries → attemptFails timeoutMillis (attempts j) = true) →
      (applyTimeoutAndRetry timeoutMillis delayMillis maxRetries attempts).1
        = Except.error (RetryFailure.exhausted
            (attemptError timeoutMillis (attempts maxRetries)))) ∧
    (∀ e, (applyTimeoutAndRetry timeoutMillis delayMillis maxRetries attempts).1
        = Except.error e →
      ∀ j, j ≤ maxRetries → attemptFails timeoutMillis (attempts j) = true) ∧
    AgentService.defaultTimeoutMillis = 30000 ∧
    AgentService.defaultMaxRetryAttempts = 3 ∧
    AgentService.retryDelayMillis = 1000 ∧
    AgentGatewayService.defaultRetryDelayMillis = 1000 := by
  refine ⟨?_, ?_, ?_, ?_, ?_, rfl, rfl, rfl, rfl⟩
  · intro d r hd
    unfold attemptOutcome
    rw [if_pos hd]
  · exact (retryLoop_trace timeoutMillis delayMillis attempts maxRetries 0).1
  · exact (retryLoop_trace timeoutMillis delayMillis attempts maxRetries 0).2
  · intro h
    have hall := retryLoop_all_fail timeoutMillis delayMillis attempts maxRetries 0
      (fun j hj => by rw [Nat.zero_add]; exact h j hj)
    rwa [Nat.zero_add] at hall
  · intro e herr j hj
    have hj' := retryLoop_error_all_fail timeoutMillis delayMillis attempts
      maxRetries 0 e herr j hj
    rwa [Nat.zero_add] at hj'

/-- Witness for C7: a 40 s attempt against the 30 s deadline times out, and
with every attempt failing the call resolves exhausted. -/
theorem timeout_retry_contract_witness :
    attemptOutcome 30000 (⟨40000, Except.ok okBody⟩ : Attempt JMap)
      = Except.error (timeoutMessage 30000) ∧
    (applyTimeoutAndRetry 30000 1000 3 alwaysTimedOut).1
      = Except.error (RetryFailure.exhausted (attemptError 30000 (alwaysTimedOut 3))) :=
  ⟨(timeout_retry_contract 30000 1000 3 alwaysTimedOut).1 40000
     (Except.ok okBody) (by decide),
   (timeout_retry_contract 30000 1000 3 alwaysTimedOut).2.2.2.1 (by decide)⟩

/-- C5 counterexample: with an empty `agent_predictions` array every
represented vote vacuously names the overall winner, yet the aligned count
(0) differs from the total agent count (4, the `agentDefinitions` fallback),
refuting "equalling it exactly when every represented vote names the overall
winner". -/
theorem alignment_total_vacuous_counterexample :
    (∀ p ∈ jmPreds ([] : JMap),
      p.predicted_winner = (buildPredictionSummary []).winner) ∧
    (buildPredictionSummary []).consensusCount = 0 ∧
    (buildPredictionSummary []).consensusTotal = 4 ∧
    (buildPredictionSummary []).consensusCount
      ≠ (buildPredictionSummary []).consensusTotal ∧
    (buildPredictionSummary []).consensusLabel = "0/4 agents" := by
  refine ⟨by decide, by decide, by decide, by decide, by decide⟩

/-- C5 (amended): every insight entry carrying a vote has its alignment flag
equal to whether that vote names the overall winner; the aligned count is the
number of predictions naming the overall winner; the label is
"{count}/{total} agents"; the count never exceeds the total; and when at
least one agent prediction is present, the count equals the total exactly iff
every prediction names the overall winner (with no predictions the total
falls back to the four dashboard agents while the count is zero). -/
theorem alignment_flags_and_label (res : JMap) :
    (∀ kv ∈ (buildPredictionSummary res).agentInsights,
      alignedFlagOk (buildPredictionSummary res).winner kv.2) ∧
    (buildPredictionSummary res).consensusCount
      = ((jmPreds res).filter fun p =>
          p.predicted_winner == (buildPredictionSummary res).winner).length ∧
    (buildPredictionSummary res).consensusLabel
      = toString (buildPredictionSummary res).consensusCount ++ "/"
        ++ toString (buildPredictionSummary res).consensusTotal ++ " agents" ∧
    (buildPredictionSummary res).consensusCount
      ≤ (buildPredictionSummary res).consensusTotal ∧
    (jmPreds res ≠ [] →
      ((buildPredictionSummary res).consensusCount
          = (buildPredictionSummary res).consensusTotal
        ↔ ∀ p ∈ jmPreds res,
            p.predicted_winner = (buildPredictionSummary res).winner)) := by
  refine ⟨?_, ?_, bps_label res, ?_, ?_⟩
  · rw [bps_insights, bps_winner]
    exact foldl_apply_aligned _ (jmPreds res) _ (base_insights_aligned _)
  · rw [bps_count, bps_winner]
  · rw [bps_count, bps_total]
    by_cases h : (jmPreds res).length = 0
    · rw [if_pos h, List.length_eq_zero.mp h]
      simp [agentDefinitions]
    · rw [if_neg h]
      exact List.length_filter_le _ _
  · intro hne
    have hlen : (jmPreds res).length ≠ 0 :=
      fun h => hne (List.length_eq_zero.mp h)
    rw [bps_count, bps_total, bps_winner, if_neg hlen,
      List.filter_length_eq_length]
    simp only [beq_iff_eq]

/-- Witness for C5: a response whose two votes both name the overall winner
reaches full alignment, count = total. -/
theorem alignment_flags_and_label_witness :
    jmPreds alignedRes ≠ [] ∧
    (buildPredictionSummary alignedRes).consensusCount
      = (buildPredictionSummary alignedRes).consensusTotal :=
  ⟨by decide,
   ((alignment_flags_and_label alignedRes).2.2.2.2 (by decide)).mpr (by decide)⟩

/-- C6 counterexample: a request whose home team equals its away team is not
rejected — with team 1 present, `predictGame 1 vs 1` calls the agent service
and returns its response, and the proxy endpoint forwards a self-referential
request exactly as it forwards a well-formed one, refuting "rejects a request
whose home team equals its away team ... without any agent being called". -/
theorem self_matchup_not_rejected :
    (PredictionController.predictGame [(1, "Chiefs")] 1 1 "t0"
      (AgentService.AgentCallOutcome.success okBody)).2 = true ∧
    (PredictionController.predictGame [(1, "Chiefs")] 1 1 "t0"
      (AgentService.AgentCallOutcome.success okBody)).1
      = ControllerResponse.ok okBody ∧
    AgentProxyController.predict 30000 1000 3 alwaysDown selfRequest
      = AgentProxyController.predict 30000 1000 3 alwaysDown sampleRequest :=
  ⟨rfl, rfl, rfl⟩

/-- C6 (amended): the entry point validates only team existence — a request
naming an unknown team id is answered `notFound` before any agent is called,
while any request whose two ids resolve (including `home = away`) is
dispatched to the agent service; no home-vs-away comparison is performed. -/
theorem entry_point_validates_only_team_existence
    (teams : List (ℕ × String)) (homeTeamId awayTeamId : ℕ) (now : String)
    (outcome : AgentService.AgentCallOutcome) :
    (findTeamName teams homeTeamId = none ∨ findTeamName teams awayTeamId = none →
      PredictionController.predictGame teams homeTeamId awayTeamId now outcome
        = (ControllerResponse.notFound, false)) ∧
    (∀ hn an, findTeamName teams homeTeamId = some hn →
      findTeamName teams awayTeamId = some an →
      (PredictionController.predictGame teams homeTeamId awayTeamId now outcome).2
        = true) := by
  constructor
  · intro h
    rcases h with h | h
    · cases hA : findTeamName teams awayTeamId <;>
        simp [PredictionController.predictGame, h, hA]
    · cases hH : findTeamName teams homeTeamId <;>
        simp [PredictionController.predictGame, h, hH]
  · intro hn an h1 h2
    simp [PredictionController.predictGame, h1, h2]

/-- Witness for C6: an unknown home id yields `notFound` with no agent call;
a resolvable self-matchup does call the agent. -/
theorem entry_point_validates_only_team_existence_witness :
    PredictionController.predictGame [(1, "Chiefs")] 2 1 "t0"
      (AgentService.AgentCallOutcome.success okBody)
      = (ControllerResponse.notFound, false) ∧
    (PredictionController.predictGame [(1, "Chiefs")] 1 1 "t0"
      (AgentService.AgentCallOutcome.success okBody)).2 = true :=
  ⟨(entry_point_validates_only_team_existence [(1, "Chiefs")] 2 1 "t0"
      (AgentService.AgentCallOutcome.success okBody)).1 (Or.inl (by decide)),
   (entry_point_validates_only_team_existence [(1, "Chiefs")] 1 1 "t0"
      (AgentService.AgentCallOutcome.success okBody)).2 "Chiefs" "Chiefs" rfl rfl⟩

/-- C8: given identical agent responses, two predict calls (made at different
times) produce summaries whose winner, confidence, reasoning, alignment
flags, label, counts, and insight ordering are all identical — even though
the `prediction_time` field of a fallback response does depend on the call
time, as the second conjunct shows. -/
theorem predict_deterministic_for_identical_responses (time1 time2 : String)
    (gameId : ℤ) (homeTeam awayTeam : String)
    (outcome : AgentService.AgentCallOutcome) :
    buildPredictionSummary
        (AgentService.getPrediction gameId time1 homeTeam awayTeam outcome)
      = buildPredictionSummary
        (AgentService.getPrediction gameId time2 homeTeam awayTeam outcome) ∧
    jmStr (AgentService.getPrediction gameId time1 homeTeam awayTeam
      (AgentService.AgentCallOutcome.failure "boom")) "prediction_time" ""
      = time1 := by
  constructor
  · cases outcome <;> rfl
  · rfl

/-- C9 counterexample: a successful `/health` probe is forwarded unchanged
rather than being reported as healthy — a probe that succeeds with an
upstream body of status `degraded` makes `getHealth` report `degraded`,
refuting "a successful probe reports healthy" for `getHealth`. -/
theorem health_forwards_upstream_status :
    attemptFails AgentService.healthCheckTimeoutMillis
      (⟨10, Except.ok degradedHealthBody⟩ : Attempt JMap) = false ∧
    AgentService.getHealth ⟨10, Except.ok degradedHealthBody⟩ = degradedHealthBody ∧
    jmStr (AgentService.getHealth ⟨10, Except.ok degradedHealthBody⟩) "status" ""
      = "degraded" ∧
    "degraded" ≠ "healthy" :=
  ⟨rfl, rfl, rfl, by decide⟩

/-- C9 (amended): both health checks use their own 5 s timeout, shorter than
the default 30 s prediction timeout and independent of it; any probe failure
is reported as an unhealthy status carrying the error instead of raising; a
successful `getAgentStatus` probe reports healthy, while `getHealth` forwards
the successful probe's response unchanged. -/
theorem health_check_timeout_and_reporting (probe : Attempt JValue)
    (probe2 : Attempt JMap) :
    AgentService.healthCheckTimeoutMillis = 5000 ∧
    AgentService.healthCheckTimeoutMillis < AgentService.defaultTimeoutMillis ∧
    (attemptFails AgentService.healthCheckTimeoutMillis probe = true →
      jmStr (AgentService.getAgentStatus probe) "status" "" = "unhealthy" ∧
      jmGet (AgentService.getAgentStatus probe) "error"
        = some (JValue.s (attemptError AgentService.healthCheckTimeoutMillis probe))) ∧
    (∀ agents, attemptOutcome AgentService.healthCheckTimeoutMillis probe
        = Except.ok agents →
      jmStr (AgentService.getAgentStatus probe) "status" "" = "healthy") ∧
    (attemptFails AgentService.healthCheckTimeoutMillis probe2 = true →
      jmStr (AgentService.getHealth probe2) "status" "" = "unhealthy" ∧
      jmGet (AgentService.getHealth probe2) "error"
        = some (JValue.s (attemptError AgentService.healthCheckTimeoutMillis probe2))) ∧
    (∀ r, attemptOutcome AgentService.healthCheckTimeoutMillis probe2
        = Except.ok r →
      AgentService.getHealth probe2 = r) := by
  refine ⟨rfl, by decide, ?_, ?_, ?_, ?_⟩
  · intro h
    unfold attemptFails at h
    unfold AgentService.getAgentStatus attemptError
    cases hE : attemptOutcome AgentService.healthCheckTimeoutMillis probe with
    | ok v => rw [hE] at h; exact Bool.noConfusion h
    | error e => simp only [hE]; exact ⟨rfl, rfl⟩
  · intro agents hE
    unfold AgentService.getAgentStatus
    simp only [hE]
    rfl
  · intro h
    unfold attemptFails at h
    unfold AgentService.getHealth attemptError
    cases hE : attemptOutcome AgentService.healthCheckTimeoutMillis probe2 with
    | ok v => rw [hE] at h; exact Bool.noConfusion h
    | error e => simp only [hE]; exact ⟨rfl, rfl⟩
  · intro r hE
    unfold AgentService.getHealth
    simp only [hE]

/-- Witness for C9: a 6 s probe trips the 5 s deadline and reports unhealthy;
fast successful probes report healthy (`getAgentStatus`) or are forwarded
(`getHealth`). -/
theorem health_check_timeout_and_reporting_witness :
    jmStr (AgentService.getAgentStatus ⟨6000, Except.ok (JValue.s "ignored")⟩)
      "status" "" = "unhealthy" ∧
    jmStr (AgentService.getAgentStatus ⟨10, Except.ok (JValue.s "up")⟩)
      "status" "" = "healthy" ∧
    AgentService.getHealth ⟨10, Except.ok okBody⟩ = okBody :=
  ⟨((health_check_timeout_and_reporting ⟨6000, Except.ok (JValue.s "ignored")⟩
      ⟨10, Except.ok okBody⟩).2.2.1 (by decide)).1,
   (health_check_timeout_and_reporting ⟨10, Except.ok (JValue.s "up")⟩
      ⟨10, Except.ok okBody⟩).2.2.2.1 (JValue.s "up") rfl,
   (health_check_timeout_and_reporting ⟨10, Except.ok (JValue.s "up")⟩
      ⟨10, Except.ok okBody⟩).2.2.2.2.2 okBody rfl⟩

/-- C10: an agent prediction whose lower-cased name contains none of
`weather`, `market`, `news`, `data`, `injury` is bucketed under `injuries`;
when two predictions land in the same bucket the later one's vote data
silently replaces the earlier one's; concretely, the two votes of
`twoVoteRes` (one unmatched name, one `injury` name) leave only a single
insight entry carrying vote data, fewer than the two votes received. -/
theorem insight_bucket_collapse (name winner : String) (m : InsightMap)
    (p1 p2 : AgentPrediction) :
    (jsIncludes (jsToLower name) "weather" = false →
     jsIncludes (jsToLower name) "market" = false →
     jsIncludes (jsToLower name) "news" = false →
     jsIncludes (jsToLower name) "data" = false →
     jsIncludes (jsToLower name) "injury" = false →
     normalizeAgentKey name = "injuries") ∧
    (normalizeAgentKey p1.agent_name = normalizeAgentKey p2.agent_name →
      (insightGet (applyAgentPrediction winner (applyAgentPrediction winner m p1) p2)
          (normalizeAgentKey p2.agent_name)).map
        (fun ins => (ins.predictedWinner, ins.confidence, ins.reasoning, ins.isAligned))
        = some (some p2.predicted_winner, some p2.confidence, some p2.reasoning,
            some (p2.predicted_winner == winner))) ∧
    (jmPreds twoVoteRes).length = 2 ∧
    ((buildPredictionSummary twoVoteRes).agentInsights.filter
      fun kv => kv.2.predictedWinner.isSome).length = 1 := by
  refine ⟨?_, ?_, by decide, by decide⟩
  · intro h1 h2 h3 h4 h5
    simp [normalizeAgentKey, h1, h2, h3, h4, h5]
  · intro heq
    simp only [applyAgentPrediction]
    rw [insightGet_insightSet_self]
    rfl

/-- Witness for C10: `ESPN Stats Agent` matches no keyword and lands in
`injuries`, where a later `Injury Agent` vote overwrites it. -/
theorem insight_bucket_collapse_witness :
    normalizeAgentKey "ESPN Stats Agent" = "injuries" ∧
    (insightGet (applyAgentPrediction "Chiefs"
        (applyAgentPrediction "Chiefs" []
          ⟨"ESPN Stats Agent", "Chiefs", 1, "r1"⟩)
        ⟨"Injury Agent", "Bills", 1, "r2"⟩)
      (normalizeAgentKey "Injury Agent")).map
        (fun ins => (ins.predictedWinner, ins.confidence, ins.reasoning, ins.isAligned))
      = some (some "Bills", some 1, some "r2", some false) :=
  ⟨(insight_bucket_collapse "ESPN Stats Agent" "x" []
      ⟨"a", "b", 0, "c"⟩ ⟨"a", "b", 0, "c"⟩).1
      (by decide) (by decide) (by decide) (by decide) (by decide),
   (insight_bucket_collapse "x" "Chiefs" []
      ⟨"ESPN Stats Agent", "Chiefs", 1, "r1"⟩
      ⟨"Injury Agent", "Bills", 1, "r2"⟩).2.1 (by decide)⟩

end NflPredict
